import Mathlib

/-!
Shallow embedding of the resource-management core of the TicketToTest_AI
repository: the retry helper (`src/utils/api_helper.py`), the rate limiter
(`src/utils/rate_limiter.py`), the response cache (`src/utils/api_cache.py`),
the shared agent state and its merge semantics (`src/agents/state.py`), the
per-stage invoke skeleton (`src/agents/ticket_reader.py`,
`src/agents/test_generator.py` and the three agents sharing the same shape),
and the orchestrator loop (`src/agents/orchestrator.py` together with the
progress callback installed by `src/app.py`).

Machine time is modelled in whole seconds as `Nat`; the remote inference
call is modelled as a function from the attempt index to the attempt's
outcome; file-system and network failures appear as explicit constructors.
-/

namespace TicketToTest

/-- Prefix test on character lists: `leadingChars p l` holds when `p` is an
initial segment of `l`. -/
def leadingChars : List Char → List Char → Bool
  | [], _ => true
  | _ :: _, [] => false
  | c :: cs, d :: ds => c = d && leadingChars cs ds

/-- Containment of `pat` as a contiguous substring of `l`
(Python's `pat in s` on strings, by code points). -/
def charsContain (pat : List Char) : List Char → Bool
  | [] => leadingChars pat []
  | c :: cs => leadingChars pat (c :: cs) || charsContain pat cs

/-- Python's `pat in s` substring test. -/
def strContains (s pat : String) : Bool :=
  charsContain pat.data s.data

/-- Transient-failure classification of `call_gemini_with_retry`
(`src/utils/api_helper.py` line 46):
`"429" in error_str or "quota" in error_str.lower() or "rate" in error_str.lower()`. -/
def isTransientError (e : String) : Bool :=
  strContains e "429" || strContains e.toLower "quota" || strContains e.toLower "rate"

/-- State of `RateLimiter` (`src/utils/rate_limiter.py`): the configured
window and the deque of recorded request timestamps, oldest first. -/
structure RateLimiter where
  max_requests : Nat
  time_window : Nat
  requests : List Nat
deriving DecidableEq

/-- Eviction loop shared by the `RateLimiter` methods
(`while self.requests and now - self.requests[0] >= self.time_window: popleft()`). -/
def RateLimiter.evictExpired (rl : RateLimiter) (now : Nat) : List Nat :=
  rl.requests.dropWhile (fun t => rl.time_window ≤ now - t)

/-- `RateLimiter.get_remaining_capacity` (`src/utils/rate_limiter.py` lines
91-100): evicts expired timestamps, then returns
`max(0, max_requests - len(requests))` (truncated subtraction on `Nat`)
together with the limiter state it leaves behind. -/
def RateLimiter.get_remaining_capacity (rl : RateLimiter) (now : Nat) : Nat × RateLimiter :=
  (rl.max_requests - (rl.evictExpired now).length,
    { rl with requests := rl.evictExpired now })

/-- Outcome of one raw remote attempt (`model.generate_content`): either a
response text or a raised exception rendered as its message string. -/
inductive AttemptResult where
  | success (text : String)
  | failure (err : String)
deriving DecidableEq

/-- Observable actions of one stage invocation, in order of occurrence:
a cache lookup (`APICache.get`), a rate-limiter acquisition
(`RateLimiter.wait_if_needed`), the `i`-th raw remote attempt, the retry
backoff sleep after attempt `i`, and a cache store (`APICache.set`). -/
inductive Event where
  | cacheLookup
  | limiterAcquire
  | remoteAttempt (i : Nat)
  | sleepBackoff (i : Nat)
  | cacheStore
deriving DecidableEq

/-- Result of `call_gemini_with_retry`: the returned response text, or the
propagated exception's message. -/
inductive CallResult where
  | ok (text : String)
  | error (err : String)
deriving DecidableEq

/-- Result of `call_gemini_with_retry` paired with the events it performed. -/
structure RetryTrace where
  result : CallResult
  events : List Event
deriving DecidableEq

/-- Loop body of `call_gemini_with_retry` (`src/utils/api_helper.py` lines
33-63). `fuel` is the number of loop iterations left, `attempt` the current
index, and the third argument the `last_error` accumulator; exhausting the
loop raises `last_error` (`raise last_error`, with Python's `None` rendered
as the string "None" for the vacuous `max_retries = 0` case). A
non-transient failure is re-raised immediately; a transient failure with
iterations remaining sleeps the computed backoff and continues; a transient
failure on the final iteration falls out of the loop and raises. -/
def callGeminiGo (attempts : Nat → AttemptResult) (max_retries : Nat) :
    Nat → Nat → Option String → RetryTrace
  | 0, _, lastError => ⟨.error (lastError.getD "None"), []⟩
  | fuel + 1, attempt, _ =>
    match attempts attempt with
    | .success t => ⟨.ok t, [.remoteAttempt attempt]⟩
    | .failure e =>
      if isTransientError e then
        if attempt < max_retries - 1 then
          ⟨(callGeminiGo attempts max_retries fuel (attempt + 1) (some e)).result,
            .remoteAttempt attempt :: .sleepBackoff attempt ::
              (callGeminiGo attempts max_retries fuel (attempt + 1) (some e)).events⟩
        else ⟨.error e, [.remoteAttempt attempt]⟩
      else ⟨.error e, [.remoteAttempt attempt]⟩

/-- `call_gemini_with_retry` (`src/utils/api_helper.py` lines 10-63): runs
the attempt loop `for attempt in range(max_retries)` starting from attempt 0
with `last_error = None`. -/
def call_gemini_with_retry (attempts : Nat → AttemptResult) (max_retries : Nat) : RetryTrace :=
  callGeminiGo attempts max_retries max_retries 0 none

/-- Recogniser for raw remote attempts among the trace events. -/
def Event.isRemote : Event → Bool
  | .remoteAttempt _ => true
  | _ => false

/-- Recogniser for rate-limiter acquisitions among the trace events. -/
def Event.isAcquire : Event → Bool
  | .limiterAcquire => true
  | _ => false

/-- Recogniser for cache lookups among the trace events. -/
def Event.isLookup : Event → Bool
  | .cacheLookup => true
  | _ => false

/-- Recogniser for cache stores among the trace events. -/
def Event.isStore : Event → Bool
  | .cacheStore => true
  | _ => false

/-- Number of events satisfying `p` in a trace. -/
def countEvents (p : Event → Bool) (es : List Event) : Nat :=
  (es.filter p).length

/-- Number of raw remote attempts in a trace. -/
def remoteCalls (es : List Event) : Nat := countEvents Event.isRemote es

/-- Number of rate-limiter acquisitions in a trace. -/
def limiterWaits (es : List Event) : Nat := countEvents Event.isAcquire es

/-- Number of cache lookups in a trace. -/
def cacheLookups (es : List Event) : Nat := countEvents Event.isLookup es

/-- Number of cache stores in a trace. -/
def cacheStores (es : List Event) : Nat := countEvents Event.isStore es

lemma callGeminiGo_all_transient (attempts : Nat → AttemptResult) (n : Nat)
    (hall : ∀ j, j < n → ∃ e, attempts j = .failure e ∧ isTransientError e = true) :
    ∀ fuel attempt lastError, attempt + fuel = n → 0 < fuel →
      remoteCalls (callGeminiGo attempts n fuel attempt lastError).events = fuel ∧
      ∃ e, attempts (n - 1) = .failure e ∧
        (callGeminiGo attempts n fuel attempt lastError).result = .error e := by
  intro fuel
  induction fuel with
  | zero => intro attempt lastError _ h0; omega
  | succ f ih =>
    intro attempt lastError hsum _
    obtain ⟨e, he, htr⟩ := hall attempt (by omega)
    by_cases hlt : attempt < n - 1
    · have hf : 0 < f := by omega
      obtain ⟨ihc, e', he', hres⟩ := ih (attempt + 1) (some e) (by omega) hf
      simp only [callGeminiGo, he, htr, if_pos hlt, if_true]
      refine ⟨?_, e', he', ?_⟩
      · simp only [remoteCalls, countEvents, List.filter_cons, Event.isRemote]
        simp only [remoteCalls, countEvents] at ihc
        simp [ihc]
      · exact hres
    · have hA : attempt = n - 1 := by omega
      subst hA
      have hf0 : f = 0 := by omega
      subst hf0
      simp only [callGeminiGo, he, htr, if_neg hlt, if_true]
      exact ⟨by simp [remoteCalls, countEvents, Event.isRemote], e, rfl, rfl⟩

/-- C3: a call whose every remote attempt fails transiently (rate/quota/429
marker in the error text) makes exactly `max_retries` remote attempts and
then raises the final failure unchanged, its transient classification
intact. -/
theorem call_gemini_with_retry_exhausts_transient (attempts : Nat → AttemptResult)
    (max_retries : Nat) (hpos : 0 < max_retries)
    (hall : ∀ j, j < max_retries → ∃ e, attempts j = .failure e ∧ isTransientError e = true) :
    remoteCalls (call_gemini_with_retry attempts max_retries).events = max_retries ∧
    ∃ e, attempts (max_retries - 1) = .failure e ∧
      (call_gemini_with_retry attempts max_retries).result = .error e ∧
      isTransientError e = true := by
  obtain ⟨hc, e, he, hres⟩ :=
    callGeminiGo_all_transient attempts max_retries hall max_retries 0 none (by omega) hpos
  refine ⟨hc, e, he, hres, ?_⟩
  obtain ⟨e', he', htr'⟩ := hall (max_retries - 1) (by omega)
  rw [he'] at he
  cases he
  exact htr'

/-- Witness for C3 at `max_retries = 3` with a constant quota failure. -/
theorem call_gemini_with_retry_exhausts_transient_witness :
    remoteCalls (call_gemini_with_retry (fun _ => .failure "429 quota exceeded") 3).events = 3 ∧
    ∃ e, (fun _ => AttemptResult.failure "429 quota exceeded") (3 - 1) = .failure e ∧
      (call_gemini_with_retry (fun _ => .failure "429 quota exceeded") 3).result = .error e ∧
      isTransientError e = true :=
  call_gemini_with_retry_exhausts_transient (fun _ => .failure "429 quota exceeded") 3
    (by decide) (fun j _ => ⟨"429 quota exceeded", rfl, by decide⟩)

/-- C7 (counterexample to the claim as stated): querying the remaining
capacity of a limiter whose window holds one expired timestamp changes the
recorded window (the expired entry is evicted), so the window is not
identical before and after the query. -/
theorem get_remaining_capacity_mutates :
    (RateLimiter.get_remaining_capacity ⟨5, 60, [0]⟩ 100).2.requests ≠
      (⟨5, 60, [0]⟩ : RateLimiter).requests := by decide

/-- C7 (amended): `get_remaining_capacity` returns `max_requests` minus the
number of still-recorded timestamps, appends no reservation — the window
after the query is a suffix of the window before, obtained by evicting a
prefix of expired timestamps — and leaves the configured limits unchanged. -/
theorem get_remaining_capacity_spec (rl : RateLimiter) (now : Nat) :
    ((rl.get_remaining_capacity now).2.requests <:+ rl.requests) ∧
    (∃ dropped, rl.requests = dropped ++ (rl.get_remaining_capacity now).2.requests ∧
      ∀ t ∈ dropped, rl.time_window ≤ now - t) ∧
    (rl.get_remaining_capacity now).1 =
      rl.max_requests - (rl.get_remaining_capacity now).2.requests.length ∧
    (rl.get_remaining_capacity now).2.max_requests = rl.max_requests ∧
    (rl.get_remaining_capacity now).2.time_window = rl.time_window := by
  refine ⟨?_, ⟨rl.requests.takeWhile (fun t => rl.time_window ≤ now - t), ?_, ?_⟩, rfl, rfl, rfl⟩
  · exact List.dropWhile_suffix _
  · simp [RateLimiter.get_remaining_capacity, RateLimiter.evictExpired]
  · intro t ht
    simpa using List.mem_takeWhile_imp ht

/-- Witness for C7 (amended) at a limiter holding one expired timestamp. -/
theorem get_remaining_capacity_spec_witness :
    ((RateLimiter.get_remaining_capacity ⟨5, 60, [0]⟩ 100).2.requests <:+
        (⟨5, 60, [0]⟩ : RateLimiter).requests) ∧
    (∃ dropped, (⟨5, 60, [0]⟩ : RateLimiter).requests =
        dropped ++ (RateLimiter.get_remaining_capacity ⟨5, 60, [0]⟩ 100).2.requests ∧
      ∀ t ∈ dropped, (⟨5, 60, [0]⟩ : RateLimiter).time_window ≤ 100 - t) ∧
    (RateLimiter.get_remaining_capacity ⟨5, 60, [0]⟩ 100).1 =
      (⟨5, 60, [0]⟩ : RateLimiter).max_requests -
        (RateLimiter.get_remaining_capacity ⟨5, 60, [0]⟩ 100).2.requests.length ∧
    (RateLimiter.get_remaining_capacity ⟨5, 60, [0]⟩ 100).2.max_requests =
      (⟨5, 60, [0]⟩ : RateLimiter).max_requests ∧
    (RateLimiter.get_remaining_capacity ⟨5, 60, [0]⟩ 100).2.time_window =
      (⟨5, 60, [0]⟩ : RateLimiter).time_window :=
  get_remaining_capacity_spec ⟨5, 60, [0]⟩ 100

/-- Quotation of a string as a JSON string literal, as `json.dumps` renders
it (escaping of special characters is omitted; it plays no role in the
claims, which concern determinism of the key). -/
def jstr (s : String) : String := "\"" ++ s ++ "\""

/-- Ordering of config entries by their key, the order `sort_keys=True`
serialises a dict in. -/
def configKeyLe (a b : String × String) : Prop := a.1 ≤ b.1

instance : DecidableRel configKeyLe :=
  fun a b => inferInstanceAs (Decidable (a.1 ≤ b.1))

instance : IsTotal (String × String) configKeyLe :=
  ⟨fun a b => le_total a.1 b.1⟩

instance : IsTrans (String × String) configKeyLe :=
  ⟨fun _ _ _ h h' => le_trans h h'⟩

/-- Serialisation of the generation-config dict by
`json.dumps(..., sort_keys=True)`: entries rendered in sorted key order. -/
def dumpsConfig (config : List (String × String)) : String :=
  "\x7b" ++ String.intercalate ", "
      ((List.insertionSort configKeyLe config).map fun p => jstr p.1 ++ ": " ++ jstr p.2)
    ++ "\x7d"

/-- Serialisation of `key_data = {"prompt": ..., "model": ..., "config": ...}`
by `json.dumps(key_data, sort_keys=True)` (`src/utils/api_cache.py` lines
31-36): the outer keys appear in sorted order config, model, prompt. -/
def keyString (prompt model : String) (config : List (String × String)) : String :=
  "\x7b\"config\": " ++ dumpsConfig config ++ ", \"model\": " ++ jstr model ++
    ", \"prompt\": " ++ jstr prompt ++ "\x7d"

/-- `APICache._get_cache_key` (`src/utils/api_cache.py` lines 28-37):
the SHA-256 hex digest of the canonical key string. The digest itself is a
fixed deterministic function of the key string; it is passed in as the
parameter `hash`, since the claims depend only on it being a function. -/
def get_cache_key (hash : String → String) (prompt model : String)
    (config : List (String × String)) : String :=
  hash (keyString prompt model config)

/-- Content of one on-disk cache file: either unreadable/corrupt, or the
stored JSON record `{timestamp, prompt[:200], model, response}`. -/
inductive CacheFile where
  | corrupt
  | entry (timestamp : Nat) (promptRef model response : String)
deriving DecidableEq

/-- Lookup of a cache file by its key (file name). -/
def lookupFile : List (String × CacheFile) → String → Option CacheFile
  | [], _ => none
  | (k, v) :: rest, key => if k = key then some v else lookupFile rest key

/-- Deletion of a cache file (`cache_file.unlink()`). -/
def eraseFile (files : List (String × CacheFile)) (key : String) : List (String × CacheFile) :=
  files.filter (fun p => !(p.1 == key))

/-- State of `APICache` (`src/utils/api_cache.py`): the configured TTL and
the cache directory contents, keyed by cache key. -/
structure APICache where
  ttl : Nat
  files : List (String × CacheFile)
deriving DecidableEq

/-- `APICache.get` (`src/utils/api_cache.py` lines 39-72): compute the key;
a missing file is a miss; a corrupt file is removed and reported a miss
(`except Exception` branch); an entry with `now - timestamp > ttl` is
deleted and reported a miss; otherwise the stored response is returned. -/
def APICache.get (hash : String → String) (c : APICache) (prompt model : String)
    (config : List (String × String)) (now : Nat) : Option String × APICache :=
  match lookupFile c.files (get_cache_key hash prompt model config) with
  | none => (none, c)
  | some .corrupt =>
      (none, { c with files := eraseFile c.files (get_cache_key hash prompt model config) })
  | some (.entry ts _ _ r) =>
      if c.ttl < now - ts then
        (none, { c with files := eraseFile c.files (get_cache_key hash prompt model config) })
      else (some r, c)

/-- `APICache.set` (`src/utils/api_cache.py` lines 74-99): overwrite the
file for this key with `{timestamp: now, prompt[:200], model, response}`;
a persistence failure (`persistOk = false`) is swallowed, leaving the cache
unchanged. -/
def APICache.set (hash : String → String) (c : APICache) (prompt model : String)
    (config : List (String × String)) (response : String) (now : Nat)
    (persistOk : Bool) : APICache :=
  if persistOk then
    { c with files :=
        (get_cache_key hash prompt model config,
          CacheFile.entry now (prompt.take 200) model response) ::
          eraseFile c.files (get_cache_key hash prompt model config) }
  else c

lemma lookupFile_eraseFile (files : List (String × CacheFile)) (key : String) :
    lookupFile (eraseFile files key) key = none := by
  induction files with
  | nil => rfl
  | cons p rest ih =>
    by_cases h : p.1 = key
    · simpa [eraseFile, h] using ih
    · cases p with
      | mk k v => simp_all [eraseFile, lookupFile]

lemma insertionSort_eq_of_perm_of_nodup_keys (c₁ c₂ : List (String × String))
    (hperm : c₁.Perm c₂) (hnd : (c₁.map Prod.fst).Nodup) :
    List.insertionSort configKeyLe c₁ = List.insertionSort configKeyLe c₂ := by
  have hp : (List.insertionSort configKeyLe c₁).Perm (List.insertionSort configKeyLe c₂) :=
    (List.perm_insertionSort _ _).trans (hperm.trans (List.perm_insertionSort _ _).symm)
  have hnd₁ : ((List.insertionSort configKeyLe c₁).map Prod.fst).Nodup :=
    (((List.perm_insertionSort configKeyLe c₁).map Prod.fst).nodup_iff).mpr hnd
  have hnd₂ : ((List.insertionSort configKeyLe c₂).map Prod.fst).Nodup :=
    ((hp.map Prod.fst).nodup_iff).mp hnd₁
  have hne₁ : (List.insertionSort configKeyLe c₁).Pairwise (fun a b => a.1 ≠ b.1) :=
    List.pairwise_map.mp hnd₁
  have hne₂ : (List.insertionSort configKeyLe c₂).Pairwise (fun a b => a.1 ≠ b.1) :=
    List.pairwise_map.mp hnd₂
  have hlt₁ : (List.insertionSort configKeyLe c₁).Pairwise
      (fun a b : String × String => a.1 < b.1) :=
    ((List.sorted_insertionSort configKeyLe c₁).and hne₁).imp
      (fun h => lt_of_le_of_ne h.1 h.2)
  have hlt₂ : (List.insertionSort configKeyLe c₂).Pairwise
      (fun a b : String × String => a.1 < b.1) :=
    ((List.sorted_insertionSort configKeyLe c₂).and hne₂).imp
      (fun h => lt_of_le_of_ne h.1 h.2)
  haveI : IsAntisymm (String × String) (fun a b => a.1 < b.1) :=
    ⟨fun _ _ h h' => (lt_asymm h h').elim⟩
  exact List.eq_of_perm_of_sorted hp hlt₁ hlt₂

/-- C9: the cache key is a deterministic function of (prompt, model,
config): two configs holding the same entries, in any order, yield the same
key, because the key string serialises the config with sorted keys. -/
theorem get_cache_key_deterministic (hash : String → String) (prompt model : String)
    (config₁ config₂ : List (String × String)) (hperm : config₁.Perm config₂)
    (hnd : (config₁.map Prod.fst).Nodup) :
    get_cache_key hash prompt model config₁ = get_cache_key hash prompt model config₂ := by
  unfold get_cache_key keyString dumpsConfig
  rw [insertionSort_eq_of_perm_of_nodup_keys config₁ config₂ hperm hnd]

/-- Witness for C9: the two field orders of the generation config used by
the agents produce the same cache key. -/
theorem get_cache_key_deterministic_witness :
    get_cache_key id "p" "gemini-2.0-flash-exp"
        [("temperature", "0.3"), ("response_mime_type", "application/json")] =
      get_cache_key id "p" "gemini-2.0-flash-exp"
        [("response_mime_type", "application/json"), ("temperature", "0.3")] :=
  get_cache_key_deterministic id "p" "gemini-2.0-flash-exp" _ _
    (List.Perm.swap _ _ _) (by decide)

/-- C8: `APICache.get` returns the stored response exactly when a
non-expired entry (age at most the TTL, measured from store time) exists
for the fingerprint; any miss on an existing entry (expired or corrupt)
deletes the entry, so after a miss no file for the fingerprint remains; a
hit leaves the cache unchanged. -/
theorem apiCache_get_spec (hash : String → String) (c : APICache) (prompt model : String)
    (config : List (String × String)) (now : Nat) :
    (∀ r, (APICache.get hash c prompt model config now).1 = some r ↔
      ∃ ts p m, lookupFile c.files (get_cache_key hash prompt model config) =
          some (CacheFile.entry ts p m r) ∧ now - ts ≤ c.ttl) ∧
    ((APICache.get hash c prompt model config now).1 = none →
      lookupFile (APICache.get hash c prompt model config now).2.files
        (get_cache_key hash prompt model config) = none) ∧
    (∀ r, (APICache.get hash c prompt model config now).1 = some r →
      (APICache.get hash c prompt model config now).2 = c) := by
  cases hl : lookupFile c.files (get_cache_key hash prompt model config) with
  | none => simp [APICache.get, hl]
  | some f =>
    cases f with
    | corrupt => simp [APICache.get, hl, lookupFile_eraseFile]
    | entry ts p m r =>
      by_cases hexp : c.ttl < now - ts
      · simp only [APICache.get, hl, if_pos hexp]
        refine ⟨?_, fun _ => lookupFile_eraseFile _ _, by simp⟩
        intro r'
        simp only [false_iff, reduceCtorEq]
        rintro ⟨ts', p', m', hsome, hle⟩
        cases hsome
        omega
      · simp only [APICache.get, hl, if_neg hexp]
        refine ⟨?_, by simp, by simp⟩
        intro r'
        constructor
        · rintro h
          cases h
          exact ⟨ts, p, m, rfl, by omega⟩
        · rintro ⟨ts', p', m', hsome, _⟩
          cases hsome
          rfl

/-- Witness for C8: a lookup that finds an expired entry reports a miss and
deletes the entry file. -/
theorem apiCache_get_spec_witness :
    lookupFile
        ((APICache.get id
            ⟨10, [(get_cache_key id "p" "m" [], CacheFile.entry 0 "p" "m" "resp")]⟩
            "p" "m" [] 100).2.files)
        (get_cache_key id "p" "m" []) = none :=
  (apiCache_get_spec id
      ⟨10, [(get_cache_key id "p" "m" [], CacheFile.entry 0 "p" "m" "resp")]⟩
      "p" "m" [] 100).2.1 (by decide)

/-- Python truthiness of an `Optional[str]` (`if cached_response:`): `None`
and the empty string are falsy. -/
def truthy : Option String → Bool
  | some s => !(s == "")
  | none => false

/-- Outcome of one stage's invoke section: the parsed value together with
the raw response text it came from, or the exception the section raises
(a propagated remote failure, or `json.JSONDecodeError` from an unguarded
`json.loads`). -/
inductive StageResult (α : Type) where
  | ok (response : String) (value : α)
  | remoteError (err : String)
  | parseError
deriving DecidableEq

/-- Result of a stage invocation: its outcome, the events it performed in
order, and the cache object it leaves behind. -/
structure InvokeOut (α : Type) where
  result : StageResult α
  events : List Event
  cache : Option APICache
deriving DecidableEq

/-- Opening brace character (written by code point to keep it out of
string literals). -/
def lbrace : Char := Char.ofNat 123

/-- Closing brace character. -/
def rbrace : Char := Char.ofNat 125

/-- Slice `cleaned_text[start:end]` of `test_generator.py` lines 111-114:
from the first opening brace to one past the last closing brace. -/
def extractBraceBlock (t : String) : String :=
  String.mk ((t.data.drop (t.data.findIdx (fun c => c = lbrace))).take
    (t.data.length - 1 - t.data.reverse.findIdx (fun c => c = rbrace) + 1 -
      t.data.findIdx (fun c => c = lbrace)))

/-- Response clean-up of `TestGeneratorAgent._generate_test_cases_for_category`
(`src/agents/test_generator.py` lines 96-114): strip surrounding
whitespace, peel markdown code fences, and cut down to the outermost brace
block when one is present. -/
def cleanupResponseText (s : String) : String :=
  let t1 := s.trim
  let t2 := if t1.startsWith "```json" then t1.drop 7 else t1
  let t3 := if t2.startsWith "```" then t2.drop 3 else t2
  let t4 := if t3.endsWith "```" then t3.dropRight 3 else t3
  let t5 := t4.trim
  if t5.contains lbrace && t5.contains rbrace then extractBraceBlock t5 else t5

/-- Remote-call section shared by the stage agents (`ticket_reader.py`
lines 53-72, identical in `context_builder.py`, `test_strategy.py`,
`coverage_auditor.py`): acquire the rate limiter when one is configured,
run `call_gemini_with_retry` (its trace is `tr`), on success store the raw
response into the cache when one is configured, then parse it with an
UNGUARDED `json.loads` — a parse failure raises out of the stage. `ev1`
holds the events already performed (the optional cache lookup). -/
def agentRemote (α : Type) (hash : String → String) (cache1 : Option APICache)
    (limiter : Bool) (prompt model : String) (config : List (String × String))
    (tr : RetryTrace) (parse : String → Option α) (now : Nat) (persistOk : Bool)
    (ev1 : List Event) : InvokeOut α :=
  match tr.result with
  | .error e =>
      ⟨.remoteError e,
        ev1 ++ (if limiter then [Event.limiterAcquire] else []) ++ tr.events, cache1⟩
  | .ok t =>
      match cache1 with
      | some c =>
          match parse t with
          | some v =>
              ⟨.ok t v,
                ev1 ++ (if limiter then [Event.limiterAcquire] else []) ++ tr.events ++
                  [Event.cacheStore],
                some (APICache.set hash c prompt model config t now persistOk)⟩
          | none =>
              ⟨.parseError,
                ev1 ++ (if limiter then [Event.limiterAcquire] else []) ++ tr.events ++
                  [Event.cacheStore],
                some (APICache.set hash c prompt model config t now persistOk)⟩
      | none =>
          match parse t with
          | some v =>
              ⟨.ok t v, ev1 ++ (if limiter then [Event.limiterAcquire] else []) ++ tr.events,
                none⟩
          | none =>
              ⟨.parseError,
                ev1 ++ (if limiter then [Event.limiterAcquire] else []) ++ tr.events, none⟩

/-- Invoke section of `TicketReaderAgent.process` (`src/agents/ticket_reader.py`
lines 44-72), shared verbatim by `ContextBuilderAgent`, `TestStrategyAgent`
and `CoverageAuditorAgent`: consult the cache when configured
(`if self.api_cache:`); a truthy cached response is parsed directly
(`result = json.loads(cached_response)`, unguarded); otherwise fall through
to the rate-limited remote call with retry. -/
def agentInvoke (α : Type) (hash : String → String) (cache : Option APICache)
    (limiter : Bool) (prompt model : String) (config : List (String × String))
    (attempts : Nat → AttemptResult) (parse : String → Option α) (now : Nat)
    (persistOk : Bool) : InvokeOut α :=
  match cache with
  | none =>
      agentRemote α hash none limiter prompt model config
        (call_gemini_with_retry attempts 3) parse now persistOk []
  | some c =>
      match APICache.get hash c prompt model config now with
      | (res, c') =>
          if truthy res then
            match parse (res.getD "") with
            | some v => ⟨.ok (res.getD "") v, [Event.cacheLookup], some c'⟩
            | none => ⟨.parseError, [Event.cacheLookup], some c'⟩
          else
            agentRemote α hash (some c') limiter prompt model config
              (call_gemini_with_retry attempts 3) parse now persistOk [Event.cacheLookup]

/-- Remote-call section of `TestGeneratorAgent._generate_test_cases_for_category`
(`src/agents/test_generator.py` lines 77-121): like `agentRemote`, but the
successful response is cleaned up and parsed under a `try`; a parse failure
falls back to the empty test-case list instead of raising. -/
def generatorRemote (α : Type) (hash : String → String) (cache1 : Option APICache)
    (limiter : Bool) (prompt model : String) (config : List (String × String))
    (tr : RetryTrace) (parse : String → Option (List α)) (now : Nat) (persistOk : Bool)
    (ev1 : List Event) : InvokeOut (List α) :=
  match tr.result with
  | .error e =>
      ⟨.remoteError e,
        ev1 ++ (if limiter then [Event.limiterAcquire] else []) ++ tr.events, cache1⟩
  | .ok t =>
      match cache1 with
      | some c =>
          ⟨.ok t ((parse (cleanupResponseText t)).getD []),
            ev1 ++ (if limiter then [Event.limiterAcquire] else []) ++ tr.events ++
              [Event.cacheStore],
            some (APICache.set hash c prompt model config t now persistOk)⟩
      | none =>
          ⟨.ok t ((parse (cleanupResponseText t)).getD []),
            ev1 ++ (if limiter then [Event.limiterAcquire] else []) ++ tr.events, none⟩

/-- Invoke section of `TestGeneratorAgent._generate_test_cases_for_category`
(`src/agents/test_generator.py` lines 57-121): a cached response is parsed
under a `try` (without clean-up); if it fails to parse, the agent falls
through and regenerates via the remote call. -/
def generatorInvoke (α : Type) (hash : String → String) (cache : Option APICache)
    (limiter : Bool) (prompt model : String) (config : List (String × String))
    (attempts : Nat → AttemptResult) (parse : String → Option (List α)) (now : Nat)
    (persistOk : Bool) : InvokeOut (List α) :=
  match cache with
  | none =>
      generatorRemote α hash none limiter prompt model config
        (call_gemini_with_retry attempts 3) parse now persistOk []
  | some c =>
      match APICache.get hash c prompt model config now with
      | (res, c') =>
          if truthy res then
            match parse (res.getD "") with
            | some v => ⟨.ok (res.getD "") v, [Event.cacheLookup], some c'⟩
            | none =>
                generatorRemote α hash (some c') limiter prompt model config
                  (call_gemini_with_retry attempts 3) parse now persistOk
                  [Event.cacheLookup]
          else
            generatorRemote α hash (some c') limiter prompt model config
              (call_gemini_with_retry attempts 3) parse now persistOk [Event.cacheLookup]

lemma callGeminiGo_filter_eq_nil (attempts : Nat → AttemptResult) (n : Nat)
    (p : Event → Bool) (hr : ∀ i, p (.remoteAttempt i) = false)
    (hs : ∀ i, p (.sleepBackoff i) = false) :
    ∀ fuel attempt lastError,
      (callGeminiGo attempts n fuel attempt lastError).events.filter p = [] := by
  intro fuel
  induction fuel with
  | zero => intro attempt lastError; simp [callGeminiGo]
  | succ f ih =>
    intro attempt lastError
    cases ha : attempts attempt with
    | success t => simp [callGeminiGo, ha, List.filter_cons, hr]
    | failure e =>
      by_cases htr : isTransientError e = true
      · by_cases hlt : attempt < n - 1
        · simp [callGeminiGo, ha, htr, hlt, List.filter_cons, hr, hs, ih]
        · simp [callGeminiGo, ha, htr, hlt, List.filter_cons, hr]
      · simp [callGeminiGo, ha, htr, List.filter_cons, hr]

lemma callGeminiGo_events_cons (attempts : Nat → AttemptResult) (n fuel attempt : Nat)
    (lastError : Option String) (h : 0 < fuel) :
    ∃ rest, (callGeminiGo attempts n fuel attempt lastError).events =
      Event.remoteAttempt attempt :: rest := by
  cases fuel with
  | zero => omega
  | succ f =>
    cases ha : attempts attempt with
    | success t => exact ⟨[], by simp [callGeminiGo, ha]⟩
    | failure e =>
      by_cases htr : isTransientError e = true
      · by_cases hlt : attempt < n - 1
        · exact ⟨Event.sleepBackoff attempt ::
              (callGeminiGo attempts n f (attempt + 1) (some e)).events,
            by simp [callGeminiGo, ha, htr, hlt]⟩
        · exact ⟨[], by simp [callGeminiGo, ha, htr, hlt]⟩
      · exact ⟨[], by simp [callGeminiGo, ha, htr]⟩

lemma retry_filter_acquire (attempts : Nat → AttemptResult) :
    (call_gemini_with_retry attempts 3).events.filter Event.isAcquire = [] :=
  callGeminiGo_filter_eq_nil attempts 3 Event.isAcquire (fun _ => rfl) (fun _ => rfl) 3 0 none

/-- C4 (amended): on the cache-miss path with a rate limiter configured, a
stage invocation acquires exactly one rate-limiter slot, before the first
remote attempt; retried attempts wait the computed backoff but never
re-acquire a slot. -/
theorem invoke_acquires_limiter_once (α : Type) (hash : String → String)
    (prompt model : String) (config : List (String × String))
    (attempts : Nat → AttemptResult) (parse : String → Option α) (now : Nat)
    (persistOk : Bool) :
    (agentInvoke α hash none true prompt model config attempts parse now
        persistOk).events.filter Event.isAcquire = [Event.limiterAcquire] ∧
    (agentInvoke α hash none true prompt model config attempts parse now
        persistOk).events.head? = some Event.limiterAcquire := by
  have hfa := retry_filter_acquire attempts
  simp only [agentInvoke, agentRemote]
  cases htr : (call_gemini_with_retry attempts 3).result with
  | error e => simp [List.filter_append, hfa, List.filter_cons, Event.isAcquire]
  | ok t =>
    cases hp : parse t with
    | some v => simp [hp, List.filter_append, hfa, List.filter_cons, Event.isAcquire]
    | none => simp [hp, List.filter_append, hfa, List.filter_cons, Event.isAcquire]

/-- C4 (counterexample to the claim as stated): a run whose first attempt
fails transiently and whose second succeeds makes two remote attempts but
only one rate-limiter acquisition — the retried attempt is not preceded by
a fresh acquisition, contradicting "re-acquires a slot before every retried
remote attempt". -/
theorem invoke_retry_does_not_reacquire :
    limiterWaits (agentInvoke Nat id none true "p" "m" []
        (fun i => if i = 0 then .failure "Error 429: quota exceeded" else .success "ok")
        (fun s => if s = "ok" then some 1 else none) 0 true).events = 1 ∧
    remoteCalls (agentInvoke Nat id none true "p" "m" []
        (fun i => if i = 0 then .failure "Error 429: quota exceeded" else .success "ok")
        (fun s => if s = "ok" then some 1 else none) 0 true).events = 2 ∧
    ¬ (remoteCalls (agentInvoke Nat id none true "p" "m" []
          (fun i => if i = 0 then .failure "Error 429: quota exceeded" else .success "ok")
          (fun s => if s = "ok" then some 1 else none) 0 true).events ≤
        limiterWaits (agentInvoke Nat id none true "p" "m" []
          (fun i => if i = 0 then .failure "Error 429: quota exceeded" else .success "ok")
          (fun s => if s = "ok" then some 1 else none) 0 true).events) := by
  decide

/-- C2 (counterexample to the claim as stated): `TicketReaderAgent.process`
parses the remote response with an unguarded `json.loads`; a response that
fails to parse raises out of the stage instead of yielding an
empty/default contribution. -/
theorem ticket_reader_parse_failure_raises :
    (agentInvoke Nat id none false "p" "m" []
        (fun _ => .success "not json") (fun _ => none) 0 true).result =
      StageResult.parseError := by
  decide

/-- C2 (amended): only `TestGeneratorAgent` recovers a response-parse
failure as an empty/default contribution (after clean-up, it falls back to
an empty test-case list and the run continues); the other four stages
(`TicketReaderAgent`, `ContextBuilderAgent`, `TestStrategyAgent`,
`CoverageAuditorAgent`) parse the response unguarded, so a parse failure
raises out of the stage. -/
theorem parse_failure_recovery_split (α : Type) (hash : String → String)
    (prompt model : String) (config : List (String × String))
    (attempts : Nat → AttemptResult) (t : String)
    (hok : (call_gemini_with_retry attempts 3).result = .ok t)
    (pg : String → Option (List α)) (hpg : pg (cleanupResponseText t) = none)
    (pr : String → Option α) (hpr : pr t = none) (now : Nat) (persistOk : Bool) :
    (generatorInvoke α hash none false prompt model config attempts pg now
        persistOk).result = StageResult.ok t [] ∧
    (agentInvoke α hash none false prompt model config attempts pr now
        persistOk).result = StageResult.parseError := by
  constructor
  · simp [generatorInvoke, generatorRemote, hok, hpg]
  · simp [agentInvoke, agentRemote, hok, hpr]

/-- Witness for C2 (amended) on a concrete unparseable response. -/
theorem parse_failure_recovery_split_witness :
    (generatorInvoke Nat id none false "p" "m" [] (fun _ => .success "garbage")
        (fun _ => none) 0 true).result = StageResult.ok "garbage" [] ∧
    (agentInvoke Nat id none false "p" "m" [] (fun _ => .success "garbage")
        (fun _ => none) 0 true).result = StageResult.parseError :=
  parse_failure_recovery_split Nat id "p" "m" [] (fun _ => .success "garbage")
    "garbage" (by decide) (fun _ => none) rfl (fun _ => none) rfl 0 true

lemma agentInvoke_miss (α : Type) (hash : String → String) (c₀ : APICache)
    (prompt model : String) (config : List (String × String))
    (attempts : Nat → AttemptResult) (parse : String → Option α) (now : Nat)
    (persistOk : Bool) (t : String) (v : α)
    (hmiss : lookupFile c₀.files (get_cache_key hash prompt model config) = none)
    (hok : (call_gemini_with_retry attempts 3).result = .ok t)
    (hparse : parse t = some v) :
    agentInvoke α hash (some c₀) true prompt model config attempts parse now persistOk =
      ⟨.ok t v,
        Event.cacheLookup :: Event.limiterAcquire ::
          ((call_gemini_with_retry attempts 3).events ++ [Event.cacheStore]),
        some (APICache.set hash c₀ prompt model config t now persistOk)⟩ := by
  simp [agentInvoke, APICache.get, hmiss, agentRemote, hok, hparse, truthy]

lemma agentInvoke_hit (α : Type) (hash : String → String) (c : APICache)
    (prompt model : String) (config : List (String × String))
    (attempts : Nat → AttemptResult) (parse : String → Option α) (now : Nat)
    (persistOk : Bool) (ts : Nat) (p m r : String) (v : α)
    (hfind : lookupFile c.files (get_cache_key hash prompt model config) =
      some (CacheFile.entry ts p m r))
    (hfresh : ¬ c.ttl < now - ts) (hr : r ≠ "") (hparse : parse r = some v) :
    agentInvoke α hash (some c) true prompt model config attempts parse now persistOk =
      ⟨.ok r v, [Event.cacheLookup], some c⟩ := by
  simp [agentInvoke, APICache.get, hfind, hfresh, truthy, hr, hparse]

/-- C5: for an unchanged (prompt, model, config) triple, once a first
invocation has completed on the cache-miss path (remote call succeeded and
its response parsed), a second invocation within the TTL is answered from
the cache: it performs zero remote attempts and zero rate-limiter
acquisitions — its only event is the cache lookup, which precedes any
rate-limiter interaction — and returns the identical response and parsed
value. -/
theorem invoke_cache_idempotent (α : Type) (hash : String → String) (c₀ : APICache)
    (prompt model : String) (config : List (String × String))
    (attempts₁ attempts₂ : Nat → AttemptResult) (parse : String → Option α)
    (now₀ now₁ : Nat) (t : String) (v : α)
    (hmiss : lookupFile c₀.files (get_cache_key hash prompt model config) = none)
    (hok : (call_gemini_with_retry attempts₁ 3).result = .ok t)
    (hparse : parse t = some v) (hempty : parse "" = none)
    (httl : now₁ - now₀ ≤ c₀.ttl) :
    ∃ c₁ : APICache,
      (agentInvoke α hash (some c₀) true prompt model config attempts₁ parse now₀
          true).result = StageResult.ok t v ∧
      (agentInvoke α hash (some c₀) true prompt model config attempts₁ parse now₀
          true).cache = some c₁ ∧
      (agentInvoke α hash (some c₁) true prompt model config attempts₂ parse now₁
          true).result = StageResult.ok t v ∧
      (agentInvoke α hash (some c₁) true prompt model config attempts₂ parse now₁
          true).events = [Event.cacheLookup] ∧
      remoteCalls (agentInvoke α hash (some c₁) true prompt model config attempts₂
          parse now₁ true).events = 0 ∧
      limiterWaits (agentInvoke α hash (some c₁) true prompt model config attempts₂
          parse now₁ true).events = 0 := by
  have ht : t ≠ "" := by
    intro h
    rw [h, hempty] at hparse
    cases hparse
  have h1 := agentInvoke_miss α hash c₀ prompt model config attempts₁ parse now₀ true
    t v hmiss hok hparse
  have hfind : lookupFile (APICache.set hash c₀ prompt model config t now₀ true).files
      (get_cache_key hash prompt model config) =
      some (CacheFile.entry now₀ (prompt.take 200) model t) := by
    simp [APICache.set, lookupFile]
  have httl' : ¬ (APICache.set hash c₀ prompt model config t now₀ true).ttl < now₁ - now₀ := by
    have hsame : (APICache.set hash c₀ prompt model config t now₀ true).ttl = c₀.ttl := by
      simp [APICache.set]
    omega
  have h2 := agentInvoke_hit α hash (APICache.set hash c₀ prompt model config t now₀ true)
    prompt model config attempts₂ parse now₁ true now₀ (prompt.take 200) model t v
    hfind httl' ht hparse
  exact ⟨APICache.set hash c₀ prompt model config t now₀ true,
    by rw [h1], by rw [h1], by rw [h2], by rw [h2], by rw [h2]; rfl, by rw [h2]; rfl⟩

/-- Witness for C5 on a concrete request pair. -/
theorem invoke_cache_idempotent_witness :
    ∃ c₁ : APICache,
      (agentInvoke Nat id (some ⟨3600, []⟩) true "p" "m" [] (fun _ => .success "[ok]")
          (fun s => if s = "[ok]" then some 7 else none) 0 true).result =
        StageResult.ok "[ok]" 7 ∧
      (agentInvoke Nat id (some ⟨3600, []⟩) true "p" "m" [] (fun _ => .success "[ok]")
          (fun s => if s = "[ok]" then some 7 else none) 0 true).cache = some c₁ ∧
      (agentInvoke Nat id (some c₁) true "p" "m" [] (fun _ => .failure "boom")
          (fun s => if s = "[ok]" then some 7 else none) 100 true).result =
        StageResult.ok "[ok]" 7 ∧
      (agentInvoke Nat id (some c₁) true "p" "m" [] (fun _ => .failure "boom")
          (fun s => if s = "[ok]" then some 7 else none) 100 true).events =
        [Event.cacheLookup] ∧
      remoteCalls (agentInvoke Nat id (some c₁) true "p" "m" [] (fun _ => .failure "boom")
          (fun s => if s = "[ok]" then some 7 else none) 100 true).events = 0 ∧
      limiterWaits (agentInvoke Nat id (some c₁) true "p" "m" [] (fun _ => .failure "boom")
          (fun s => if s = "[ok]" then some 7 else none) 100 true).events = 0 :=
  invoke_cache_idempotent Nat id ⟨3600, []⟩ "p" "m" [] (fun _ => .success "[ok]")
    (fun _ => .failure "boom") (fun s => if s = "[ok]" then some 7 else none) 0 100
    "[ok]" 7 rfl (by decide) (by decide) (by decide) (by decide)

/-- Configuration held by one stage agent: its name and the two optional
collaborators every agent constructor accepts
(`def __init__(self, llm_client, rate_limiter=None, api_cache=None)`). -/
structure StageAgent where
  name : String
  rate_limiter : Option RateLimiter
  api_cache : Option APICache
deriving DecidableEq

/-- The five stage agents held by `AgentOrchestrator`. -/
structure AgentOrchestrator where
  ticket_reader : StageAgent
  context_builder : StageAgent
  test_strategy : StageAgent
  test_generator : StageAgent
  coverage_auditor : StageAgent
deriving DecidableEq

/-- `AgentOrchestrator.__init__` (`src/agents/orchestrator.py` lines 24-36):
every agent is constructed with only the LLM client
(`TicketReaderAgent(self.llm_client)` and likewise for the other four), so
the optional `rate_limiter` and `api_cache` parameters keep their `None`
defaults. -/
def AgentOrchestrator.construct : AgentOrchestrator :=
  { ticket_reader := ⟨"TicketReaderAgent", none, none⟩
    context_builder := ⟨"ContextBuilderAgent", none, none⟩
    test_strategy := ⟨"TestStrategyAgent", none, none⟩
    test_generator := ⟨"TestGeneratorAgent", none, none⟩
    coverage_auditor := ⟨"CoverageAuditorAgent", none, none⟩ }

lemma agentInvoke_none_events (α : Type) (hash : String → String)
    (prompt model : String) (config : List (String × String))
    (attempts : Nat → AttemptResult) (parse : String → Option α) (now : Nat)
    (persistOk : Bool) :
    (agentInvoke α hash none false prompt model config attempts parse now
        persistOk).events = (call_gemini_with_retry attempts 3).events := by
  simp only [agentInvoke, agentRemote]
  cases htr : (call_gemini_with_retry attempts 3).result with
  | error e => simp
  | ok t =>
    cases hp : parse t with
    | some v => simp [hp]
    | none => simp [hp]

lemma generatorInvoke_none_events (α : Type) (hash : String → String)
    (prompt model : String) (config : List (String × String))
    (attempts : Nat → AttemptResult) (parse : String → Option (List α)) (now : Nat)
    (persistOk : Bool) :
    (generatorInvoke α hash none false prompt model config attempts parse now
        persistOk).events = (call_gemini_with_retry attempts 3).events := by
  simp only [generatorInvoke, generatorRemote]
  cases htr : (call_gemini_with_retry attempts 3).result with
  | error e => simp
  | ok t => simp

lemma retry_remote_pos (attempts : Nat → AttemptResult) :
    1 ≤ remoteCalls (call_gemini_with_retry attempts 3).events := by
  obtain ⟨rest, hev⟩ := callGeminiGo_events_cons attempts 3 3 0 none (by omega)
  unfold call_gemini_with_retry
  rw [hev]
  simp [remoteCalls, countEvents, List.filter_cons, Event.isRemote]

lemma retry_only_remote_and_sleep (attempts : Nat → AttemptResult)
    (p : Event → Bool) (hr : ∀ i, p (.remoteAttempt i) = false)
    (hs : ∀ i, p (.sleepBackoff i) = false) :
    (call_gemini_with_retry attempts 3).events.filter p = [] :=
  callGeminiGo_filter_eq_nil attempts 3 p hr hs 3 0 none

/-- C10: the orchestrator builds every stage agent with
`rate_limiter = None` and `api_cache = None`, so in an orchestrator-driven
run no stage performs a cache lookup, a cache store, or a rate-limiter
acquisition — every stage takes the direct remote-call branch (at least one
remote attempt). -/
theorem orchestrator_stages_bypass_cache_and_limiter :
    (AgentOrchestrator.construct.ticket_reader.rate_limiter = none ∧
      AgentOrchestrator.construct.ticket_reader.api_cache = none) ∧
    (AgentOrchestrator.construct.context_builder.rate_limiter = none ∧
      AgentOrchestrator.construct.context_builder.api_cache = none) ∧
    (AgentOrchestrator.construct.test_strategy.rate_limiter = none ∧
      AgentOrchestrator.construct.test_strategy.api_cache = none) ∧
    (AgentOrchestrator.construct.test_generator.rate_limiter = none ∧
      AgentOrchestrator.construct.test_generator.api_cache = none) ∧
    (AgentOrchestrator.construct.coverage_auditor.rate_limiter = none ∧
      AgentOrchestrator.construct.coverage_auditor.api_cache = none) ∧
    (∀ (α : Type) (hash : String → String) (prompt model : String)
        (config : List (String × String)) (attempts : Nat → AttemptResult)
        (parse : String → Option α) (now : Nat) (persistOk : Bool),
      cacheLookups (agentInvoke α hash AgentOrchestrator.construct.ticket_reader.api_cache
          AgentOrchestrator.construct.ticket_reader.rate_limiter.isSome prompt model config
          attempts parse now persistOk).events = 0 ∧
      cacheStores (agentInvoke α hash AgentOrchestrator.construct.ticket_reader.api_cache
          AgentOrchestrator.construct.ticket_reader.rate_limiter.isSome prompt model config
          attempts parse now persistOk).events = 0 ∧
      limiterWaits (agentInvoke α hash AgentOrchestrator.construct.ticket_reader.api_cache
          AgentOrchestrator.construct.ticket_reader.rate_limiter.isSome prompt model config
          attempts parse now persistOk).events = 0 ∧
      1 ≤ remoteCalls (agentInvoke α hash AgentOrchestrator.construct.ticket_reader.api_cache
          AgentOrchestrator.construct.ticket_reader.rate_limiter.isSome prompt model config
          attempts parse now persistOk).events) ∧
    (∀ (α : Type) (hash : String → String) (prompt model : String)
        (config : List (String × String)) (attempts : Nat → AttemptResult)
        (parse : String → Option (List α)) (now : Nat) (persistOk : Bool),
      cacheLookups (generatorInvoke α hash AgentOrchestrator.construct.test_generator.api_cache
          AgentOrchestrator.construct.test_generator.rate_limiter.isSome prompt model config
          attempts parse now persistOk).events = 0 ∧
      cacheStores (generatorInvoke α hash AgentOrchestrator.construct.test_generator.api_cache
          AgentOrchestrator.construct.test_generator.rate_limiter.isSome prompt model config
          attempts parse now persistOk).events = 0 ∧
      limiterWaits (generatorInvoke α hash AgentOrchestrator.construct.test_generator.api_cache
          AgentOrchestrator.construct.test_generator.rate_limiter.isSome prompt model config
          attempts parse now persistOk).events = 0 ∧
      1 ≤ remoteCalls (generatorInvoke α hash AgentOrchestrator.construct.test_generator.api_cache
          AgentOrchestrator.construct.test_generator.rate_limiter.isSome prompt model config
          attempts parse now persistOk).events) := by
  refine ⟨⟨rfl, rfl⟩, ⟨rfl, rfl⟩, ⟨rfl, rfl⟩, ⟨rfl, rfl⟩, ⟨rfl, rfl⟩, ?_, ?_⟩
  · intro α hash prompt model config attempts parse now persistOk
    have hev := agentInvoke_none_events α hash prompt model config attempts parse now persistOk
    have hev' : (agentInvoke α hash AgentOrchestrator.construct.ticket_reader.api_cache
        AgentOrchestrator.construct.ticket_reader.rate_limiter.isSome prompt model config
        attempts parse now persistOk).events = (call_gemini_with_retry attempts 3).events := hev
    refine ⟨?_, ?_, ?_, ?_⟩
    · simp only [cacheLookups, countEvents, hev',
        retry_only_remote_and_sleep attempts Event.isLookup (fun _ => rfl) (fun _ => rfl)]
      rfl
    · simp only [cacheStores, countEvents, hev',
        retry_only_remote_and_sleep attempts Event.isStore (fun _ => rfl) (fun _ => rfl)]
      rfl
    · simp only [limiterWaits, countEvents, hev',
        retry_only_remote_and_sleep attempts Event.isAcquire (fun _ => rfl) (fun _ => rfl)]
      rfl
    · rw [hev']
      exact retry_remote_pos attempts
  · intro α hash prompt model config attempts parse now persistOk
    have hev := generatorInvoke_none_events α hash prompt model config attempts parse now
      persistOk
    have hev' : (generatorInvoke α hash AgentOrchestrator.construct.test_generator.api_cache
        AgentOrchestrator.construct.test_generator.rate_limiter.isSome prompt model config
        attempts parse now persistOk).events = (call_gemini_with_retry attempts 3).events := hev
    refine ⟨?_, ?_, ?_, ?_⟩
    · simp only [cacheLookups, countEvents, hev',
        retry_only_remote_and_sleep attempts Event.isLookup (fun _ => rfl) (fun _ => rfl)]
      rfl
    · simp only [cacheStores, countEvents, hev',
        retry_only_remote_and_sleep attempts Event.isStore (fun _ => rfl) (fun _ => rfl)]
      rfl
    · simp only [limiterWaits, countEvents, hev',
        retry_only_remote_and_sleep attempts Event.isAcquire (fun _ => rfl) (fun _ => rfl)]
      rfl
    · rw [hev']
      exact retry_remote_pos attempts

/-- One (author, body) ticket comment (`src/agents/state.py` `TicketInfo`). -/
structure Comment where
  author : String
  body : String
deriving DecidableEq

/-- `TicketInfo` (`src/agents/state.py` lines 10-21). -/
structure TicketInfo where
  ticket_id : String
  title : String
  description : String
  acceptance_criteria : List String
  ticket_type : String
  priority : String
  status : String
  attachments : List String
  comments : List Comment
  linked_tickets : List String
deriving DecidableEq

/-- `TestCase` (`src/agents/state.py` lines 24-34). -/
structure TestCase where
  test_id : String
  title : String
  priority : String
  category : String
  preconditions : String
  test_steps : List String
  expected_result : String
  test_data : Option String
  automation_feasibility : String
deriving DecidableEq

/-- One audit-log record appended by `log_agent_action`
(`src/agents/state.py` lines 87-94); the details map carries counts. -/
structure LogEntry where
  agent : String
  action : String
  details : List (String × Nat)
  timestamp : String
deriving DecidableEq

/-- `AgentState` (`src/agents/state.py` lines 37-64). Fields annotated
`Annotated[..., operator.add]` in the source are the append fields
(`acceptance_criteria_gaps`, `risk_areas`, `test_cases`, `coverage_gaps`,
`clarification_questions`, `agent_logs`); the rest are replace fields.
Wall-clock `processing_time` is modelled in whole seconds. -/
structure AgentState where
  ticket_info : TicketInfo
  extracted_requirements : List String
  acceptance_criteria_gaps : List String
  impacted_modules : List String
  dependencies : List String
  qa_roadmap : List (String × List String)
  risk_areas : List String
  test_cases : List TestCase
  coverage_gaps : List String
  clarification_questions : List String
  agent_logs : List LogEntry
  current_agent : String
  processing_time : Nat
  timestamp : String
deriving DecidableEq

/-- `create_initial_state` (`src/agents/state.py` lines 67-84): all append
fields empty, replace fields at their defaults, creation time recorded. -/
def create_initial_state (ticket_info : TicketInfo) (timestamp : String) : AgentState :=
  { ticket_info := ticket_info
    extracted_requirements := []
    acceptance_criteria_gaps := []
    impacted_modules := []
    dependencies := []
    qa_roadmap := []
    risk_areas := []
    test_cases := []
    coverage_gaps := []
    clarification_questions := []
    agent_logs := []
    current_agent := ""
    processing_time := 0
    timestamp := timestamp }

/-- One node's returned channel values, as the state graph merges them: a
replace field may be absent (`none` leaves the previous value); an append
field contributes a list that `operator.add` concatenates onto the
accumulated one (an absent key is the empty contribution). -/
structure AgentUpdate where
  ticket_info : Option TicketInfo
  extracted_requirements : Option (List String)
  acceptance_criteria_gaps : List String
  impacted_modules : Option (List String)
  dependencies : Option (List String)
  qa_roadmap : Option (List (String × List String))
  risk_areas : List String
  test_cases : List TestCase
  coverage_gaps : List String
  clarification_questions : List String
  agent_logs : List LogEntry
  current_agent : Option String
  processing_time : Option Nat
  timestamp : Option String
deriving DecidableEq

/-- Channel merge applied by the state graph after each stage
(`src/agents/state.py` lines 37-64): fields annotated with `operator.add`
are concatenated (old + new); the remaining fields are replaced when the
update carries them. -/
def applyUpdate (s : AgentState) (u : AgentUpdate) : AgentState :=
  { ticket_info := u.ticket_info.getD s.ticket_info
    extracted_requirements := u.extracted_requirements.getD s.extracted_requirements
    acceptance_criteria_gaps := s.acceptance_criteria_gaps ++ u.acceptance_criteria_gaps
    impacted_modules := u.impacted_modules.getD s.impacted_modules
    dependencies := u.dependencies.getD s.dependencies
    qa_roadmap := u.qa_roadmap.getD s.qa_roadmap
    risk_areas := s.risk_areas ++ u.risk_areas
    test_cases := s.test_cases ++ u.test_cases
    coverage_gaps := s.coverage_gaps ++ u.coverage_gaps
    clarification_questions := s.clarification_questions ++ u.clarification_questions
    agent_logs := s.agent_logs ++ u.agent_logs
    current_agent := u.current_agent.getD s.current_agent
    processing_time := u.processing_time.getD s.processing_time
    timestamp := u.timestamp.getD s.timestamp }

lemma foldl_applyUpdate_append {β : Type} (proj : AgentState → List β)
    (contrib : AgentUpdate → List β)
    (hstep : ∀ s u, proj (applyUpdate s u) = proj s ++ contrib u) :
    ∀ (us : List AgentUpdate) (s : AgentState),
      proj (us.foldl applyUpdate s) = proj s ++ (us.map contrib).flatten := by
  intro us
  induction us with
  | nil => intro s; simp
  | cons u rest ih =>
    intro s
    simp [List.foldl_cons, ih, hstep]

/-- C6: every append field of the pipeline state merges by concatenation —
across any number of sequential stage merges, the merged sequence equals
the prior sequence followed by the stages' contributions in arrival order,
with nothing dropped, duplicated or reordered. -/
theorem append_fields_merge_by_concatenation (s : AgentState) (us : List AgentUpdate) :
    (us.foldl applyUpdate s).acceptance_criteria_gaps =
        s.acceptance_criteria_gaps ++ (us.map (·.acceptance_criteria_gaps)).flatten ∧
    (us.foldl applyUpdate s).risk_areas =
        s.risk_areas ++ (us.map (·.risk_areas)).flatten ∧
    (us.foldl applyUpdate s).test_cases =
        s.test_cases ++ (us.map (·.test_cases)).flatten ∧
    (us.foldl applyUpdate s).coverage_gaps =
        s.coverage_gaps ++ (us.map (·.coverage_gaps)).flatten ∧
    (us.foldl applyUpdate s).clarification_questions =
        s.clarification_questions ++ (us.map (·.clarification_questions)).flatten ∧
    (us.foldl applyUpdate s).agent_logs =
        s.agent_logs ++ (us.map (·.agent_logs)).flatten :=
  ⟨foldl_applyUpdate_append _ _ (fun _ _ => rfl) us s,
    foldl_applyUpdate_append _ _ (fun _ _ => rfl) us s,
    foldl_applyUpdate_append _ _ (fun _ _ => rfl) us s,
    foldl_applyUpdate_append _ _ (fun _ _ => rfl) us s,
    foldl_applyUpdate_append _ _ (fun _ _ => rfl) us s,
    foldl_applyUpdate_append _ _ (fun _ _ => rfl) us s⟩

/-- Outcome of `AgentOrchestrator.process_ticket` as the caller sees it:
either the final state (with the elapsed time stamped in), or a raised
exception carrying only its message — an exception carries no state. -/
inductive RunOutcome where
  | completed (state : AgentState)
  | exception (msg : String)
deriving DecidableEq

/-- Streaming loop of `AgentOrchestrator.process_ticket`
(`src/agents/orchestrator.py` lines 84-95) composed with the progress
callback installed by the UI (`src/app.py` lines 1506-1509): each stage
runs in order; a stage's own exception propagates; after each stage the
callback checks the cancel flag and raises the generic
`Exception("Processing cancelled by user")` when it is set. The second
component counts the stages that executed (each issues remote calls). -/
def processTicketGo (cancelRequested : Nat → Bool) :
    List (AgentState → Except String AgentState) → AgentState → Nat → RunOutcome × Nat
  | [], s, i => (.completed s, i)
  | f :: rest, s, i =>
    match f s with
    | .error e => (.exception e, i + 1)
    | .ok s' =>
      if cancelRequested i then (.exception "Processing cancelled by user", i + 1)
      else processTicketGo cancelRequested rest s' (i + 1)

/-- `AgentOrchestrator.process_ticket` (`src/agents/orchestrator.py` lines
63-101): run the five-stage workflow from the initial state; on completion
stamp the elapsed wall-clock time into the state; an exception raised
mid-run (by a stage, or by the cancel check in the progress callback)
propagates to the caller and the accumulated state is not returned. -/
def process_ticket (stages : List (AgentState → Except String AgentState))
    (cancelRequested : Nat → Bool) (s0 : AgentState) (elapsed : Nat) : RunOutcome × Nat :=
  match processTicketGo cancelRequested stages s0 0 with
  | (.completed s, n) => (.completed { s with processing_time := elapsed }, n)
  | out => out

/-- Concrete ticket used by the cancellation scenarios. -/
def demoTicket : TicketInfo :=
  { ticket_id := "T-1", title := "t", description := "d", acceptance_criteria := [],
    ticket_type := "bug", priority := "P1", status := "open", attachments := [],
    comments := [], linked_tickets := [] }

/-- Concrete stage contributing one marker to an append field. -/
def demoStage (tag : String) : AgentState → Except String AgentState :=
  fun s => .ok { s with coverage_gaps := s.coverage_gaps ++ [tag] }

/-- C1 (counterexample to the claim as stated): with the cancel flag set
before stage 3, the run stops after stage 2 but returns the generic
`Exception("Processing cancelled by user")` — an outcome that carries no
state at all (so not "exactly stages 1-2's contributions"), and that is
indistinguishable from an ordinary stage failure with the same message, as
the second scenario shows — not a distinct cancellation outcome. -/
theorem cancel_outcome_not_distinct :
    process_ticket [demoStage "s1", demoStage "s2", demoStage "s3", demoStage "s4",
        demoStage "s5"] (fun i => decide (1 ≤ i)) (create_initial_state demoTicket "ts") 9 =
      (RunOutcome.exception "Processing cancelled by user", 2) ∧
    process_ticket [fun _ => Except.error "Processing cancelled by user", demoStage "s2",
        demoStage "s3", demoStage "s4", demoStage "s5"] (fun _ => false)
        (create_initial_state demoTicket "ts") 9 =
      (RunOutcome.exception "Processing cancelled by user", 1) := by
  constructor
  · rfl
  · rfl

/-- C1 (amended): if the cancel flag is clear at the stage-1 check and set
by the stage-2 check, a five-stage run executes exactly stages 1 and 2 —
so no stage-3-or-later remote call is issued — and then terminates by
raising the generic cancellation exception; the merged stages-1-2 state is
not returned to the caller. -/
theorem cancel_before_stage3_generic_exception
    (f1 f2 f3 f4 f5 : AgentState → Except String AgentState)
    (cancel : Nat → Bool) (s0 s1 s2 : AgentState) (elapsed : Nat)
    (h0 : cancel 0 = false) (h1 : cancel 1 = true)
    (hf1 : f1 s0 = .ok s1) (hf2 : f2 s1 = .ok s2) :
    process_ticket [f1, f2, f3, f4, f5] cancel s0 elapsed =
      (RunOutcome.exception "Processing cancelled by user", 2) := by
  simp [process_ticket, processTicketGo, hf1, hf2, h0, h1]

/-- Initial state of the cancellation witness run. -/
def demoS0 : AgentState := create_initial_state demoTicket "ts"

/-- State after stage 1 of the cancellation witness run. -/
def demoS1 : AgentState := { demoS0 with coverage_gaps := ["s1"] }

/-- State after stage 2 of the cancellation witness run. -/
def demoS2 : AgentState := { demoS1 with coverage_gaps := ["s1", "s2"] }

/-- Witness for C1 (amended) on a concrete five-stage run. -/
theorem cancel_before_stage3_generic_exception_witness :
    process_ticket [demoStage "s1", demoStage "s2", demoStage "s3", demoStage "s4",
        demoStage "s5"] (fun i => decide (i = 1)) demoS0 9 =
      (RunOutcome.exception "Processing cancelled by user", 2) :=
  cancel_before_stage3_generic_exception (demoStage "s1") (demoStage "s2")
    (demoStage "s3") (demoStage "s4") (demoStage "s5") (fun i => decide (i = 1))
    demoS0 demoS1 demoS2 9 (by decide) (by decide) rfl rfl

end TicketToTest
